import Mathlib

/-!
Verification of the CHD (Construction Hybrid Data) storage engine:
a shallow embedding in Lean 4 of the binary codec, the chunk writer,
the reader, and the flat spatial index, together with theorems that
settle the specification's claims about them.

JavaScript numbers are modelled as follows: integer-valued quantities
(counts, offsets, surrogate IDs) as `Nat`/`Int` with explicit 32-bit
wrapping where the source applies bitwise operations or typed-array
stores; geometric coordinates as `ℚ` (IEEE float rounding is not
modelled; no claim below depends on it).  Fallible operations return
`Except String`, carrying the exact error message the source throws.
-/

namespace CHD

/-- ToInt32 of ECMAScript: wrap an integer to the signed 32-bit range.
Models `x & x` and the result range of `x << 5` in the source. -/
def toInt32 (z : Int) : Int :=
  (z + 2 ^ 31) % 2 ^ 32 - 2 ^ 31

/-- ToUint32 of ECMAScript on an integer value: wrap to `[0, 2^32)`.
Models what `DataView.setUint32` stores for an integral argument. -/
def toUint32 (z : Int) : Nat :=
  (z % 2 ^ 32).toNat

/-- A JavaScript value used as an element or chunk identifier: either a
string or a number.  (Identifiers in the source are only ever strings
or numbers.) -/
inductive JsKey where
  | str (s : String)
  | num (n : Int)
deriving DecidableEq, Repr

/-- Strict equality `===` between two identifier values: values of
different types are never equal. -/
def jsStrictEq : JsKey → JsKey → Bool
  | .str a, .str b => a = b
  | .num a, .num b => a = b
  | _, _ => false

/-- Printing of an identifier inside a template string: numbers print in
decimal, strings print verbatim. -/
def jsKeyToString : JsKey → String
  | .str s => s
  | .num n => toString n

/-- Truthiness of an identifier value: the number `0` and the empty
string are falsy, everything else is truthy. -/
def jsTruthy : JsKey → Bool
  | .str s => s ≠ ""
  | .num n => n ≠ 0

/-- Decimal value of a digit list (most significant first). -/
def decDigitsValue : List Char → Nat → Nat
  | [], acc => acc
  | c :: cs, acc => decDigitsValue cs (acc * 10 + (c.toNat - 48))

/-- ToNumber∘ToUint32 of a decimal-digit string, as applied by
`DataView.setUint32` when the writer passes the zero-padded chunk-ID
string to `writeUInt32`.  Chunk IDs produced by the writer are always
decimal-digit strings; a non-numeric string coerces through NaN, which
ToUint32 maps to 0. -/
def stringToUint32 (s : String) : Nat :=
  (if s.toList.all (fun c => 48 ≤ c.toNat ∧ c.toNat ≤ 57) then decDigitsValue s.toList 0
   else 0) % 2 ^ 32

/-- Association-list update with JavaScript `Map.set` semantics: replace
the value in place if the key is present, else append at the end. -/
def mapSet {α β : Type} [DecidableEq α] : List (α × β) → α → β → List (α × β)
  | [], k, v => [(k, v)]
  | (k', v') :: rest, k, v =>
    if k' = k then (k, v) :: rest else (k', v') :: mapSet rest k v

/-- Association-list lookup with JavaScript `Map.get` semantics. -/
def mapGet {α β : Type} [DecidableEq α] (m : List (α × β)) (k : α) : Option β :=
  (m.find? (fun p => p.1 = k)).map (fun p => p.2)

/-- Membership test with JavaScript `Map.has` semantics. -/
def mapHas {α β : Type} [DecidableEq α] (m : List (α × β)) (k : α) : Bool :=
  (mapGet m k).isSome

namespace CHDWriter

/-- One step of the rolling hash in `CHDWriter.convertToNumericId`:
`hash = ((hash << 5) - hash) + char; hash = hash & hash`.  The shift
wraps to int32; the subtraction and addition are exact; the final
bitwise `and` wraps the result to int32. -/
def hashStep (h : Int) (c : Nat) : Int :=
  toInt32 (toInt32 (h * 32) - h + c)

/-- The character loop of `CHDWriter.convertToNumericId`, starting from
`hash = 0`.  `charCodeAt` agrees with `Char.toNat` on ASCII input. -/
def hashLoop : Int → List Char → Int
  | h, [] => h
  | h, c :: cs => hashLoop (hashStep h c.toNat) cs

/-- The writer's in-memory ID-mapping table (`this.idMapping`), mapping
numeric surrogate IDs back to original string IDs. -/
structure IdState where
  idMapping : List (Int × String)
deriving Repr, DecidableEq

/-- CHDWriter.convertToNumericId: a numeric ID is returned unchanged
(and the mapping table is not touched); a string ID is hashed with the
rolling hash, made non-negative with `Math.abs`, and recorded in the
ID-mapping table. -/
def convertToNumericId (st : IdState) (id : JsKey) : Int × IdState :=
  match id with
  | .num n => (n, st)
  | .str s =>
    let hash := hashLoop 0 s.toList
    let numericId : Int := Int.natAbs hash
    (numericId, { st with idMapping := mapSet st.idMapping numericId s })

end CHDWriter

namespace CHDParser

/-- One step of the rolling hash in `CHDParser.convertToNumericId`
(the reader-side copy of the writer's hash). -/
def hashStep (h : Int) (c : Nat) : Int :=
  toInt32 (toInt32 (h * 32) - h + c)

/-- The character loop of `CHDParser.convertToNumericId`, starting from
`hash = 0`. -/
def hashLoop : Int → List Char → Int
  | h, [] => h
  | h, c :: cs => hashLoop (hashStep h c.toNat) cs

/-- CHDParser.convertToNumericId: a numeric ID is returned unchanged; a
string ID is hashed and made non-negative with `Math.abs`.  The parser
keeps no mapping table. -/
def convertToNumericId (id : JsKey) : Int :=
  match id with
  | .num n => n
  | .str s => Int.natAbs (hashLoop 0 s.toList)

end CHDParser

/-! ## BinaryReader (src/utils/BinaryReader.js)

The reader is a cursor over a byte buffer.  Each primitive read checks
`canRead` first and throws (without touching the cursor) when the
requested bytes run past the end; the model returns the error message
paired with the unchanged state.  Float reads return the raw
little-endian bit pattern: IEEE decoding is not modelled, and no claim
depends on float values. -/

structure BRState where
  data : List Nat
  offset : Nat
deriving Repr, DecidableEq

namespace BinaryReader

/-- BinaryReader.canRead: whether `bytes` more bytes fit in the buffer. -/
def canRead (s : BRState) (bytes : Nat) : Bool :=
  s.offset + bytes ≤ s.data.length

/-- Little-endian combination of a list of bytes into an unsigned
integer, as `DataView.getUintN(offset, true)` computes it. -/
def leValue (bytes : List Nat) : Nat :=
  bytes.foldr (fun b acc => b + 256 * acc) 0

/-- The `length` bytes at the cursor. -/
def bytesAt (s : BRState) (length : Nat) : List Nat :=
  (s.data.drop s.offset).take length

/-- BinaryReader.readBytes: raw bytes, or a range error naming the
requested length and the offset attempted. -/
def readBytes (s : BRState) (length : Nat) : Except String (List Nat) × BRState :=
  if canRead s length then
    (.ok (bytesAt s length), { s with offset := s.offset + length })
  else
    (.error ("Cannot read " ++ toString length ++ " bytes at offset " ++ toString s.offset), s)

/-- BinaryReader.readUInt8. -/
def readUInt8 (s : BRState) : Except String Nat × BRState :=
  if canRead s 1 then
    (.ok (leValue (bytesAt s 1)), { s with offset := s.offset + 1 })
  else
    (.error ("Cannot read UInt8 at offset " ++ toString s.offset), s)

/-- BinaryReader.readUInt16 (little-endian). -/
def readUInt16 (s : BRState) : Except String Nat × BRState :=
  if canRead s 2 then
    (.ok (leValue (bytesAt s 2)), { s with offset := s.offset + 2 })
  else
    (.error ("Cannot read UInt16 at offset " ++ toString s.offset), s)

/-- BinaryReader.readUInt32 (little-endian). -/
def readUInt32 (s : BRState) : Except String Nat × BRState :=
  if canRead s 4 then
    (.ok (leValue (bytesAt s 4)), { s with offset := s.offset + 4 })
  else
    (.error ("Cannot read UInt32 at offset " ++ toString s.offset), s)

/-- BinaryReader.readInt32 (little-endian, two's complement). -/
def readInt32 (s : BRState) : Except String Int × BRState :=
  if canRead s 4 then
    let u := leValue (bytesAt s 4)
    (.ok (if u < 2 ^ 31 then (u : Int) else (u : Int) - 2 ^ 32),
      { s with offset := s.offset + 4 })
  else
    (.error ("Cannot read Int32 at offset " ++ toString s.offset), s)

/-- BinaryReader.readFloat32: the 4-byte little-endian bit pattern. -/
def readFloat32 (s : BRState) : Except String Nat × BRState :=
  if canRead s 4 then
    (.ok (leValue (bytesAt s 4)), { s with offset := s.offset + 4 })
  else
    (.error ("Cannot read Float32 at offset " ++ toString s.offset), s)

/-- BinaryReader.readFloat64: the 8-byte little-endian bit pattern. -/
def readFloat64 (s : BRState) : Except String Nat × BRState :=
  if canRead s 8 then
    (.ok (leValue (bytesAt s 8)), { s with offset := s.offset + 8 })
  else
    (.error ("Cannot read Float64 at offset " ++ toString s.offset), s)

end BinaryReader

/-! ## Geometry and bounding boxes -/

/-- A 3D vertex `[x, y, z]`.  Coordinates are modelled as rationals. -/
structure Vec3 where
  x : ℚ
  y : ℚ
  z : ℚ
deriving DecidableEq, Repr

/-- An axis-aligned bounding box `{min, max}`. -/
structure BBox where
  lo : Vec3
  hi : Vec3
deriving DecidableEq, Repr

/-- Math.min on two numbers. -/
def jsMin (a b : ℚ) : ℚ := if a ≤ b then a else b

/-- Math.max on two numbers. -/
def jsMax (a b : ℚ) : ℚ := if b ≤ a then a else b

/-- Extend a bounding box by one vertex, componentwise (one iteration of
the min/max accumulation loops in the source). -/
def bboxExtend (b : BBox) (v : Vec3) : BBox :=
  ⟨⟨jsMin b.lo.x v.x, jsMin b.lo.y v.y, jsMin b.lo.z v.z⟩,
   ⟨jsMax b.hi.x v.x, jsMax b.hi.y v.y, jsMax b.hi.z v.z⟩⟩

/-- Min/max accumulation over a vertex list.  The source starts the
fold from `±Infinity`; over a non-empty list that equals folding from
the first vertex, and every caller handles the empty list separately
(returning the zero box), which is modelled by the match. -/
def verticesBBox (vertices : List Vec3) : BBox :=
  match vertices with
  | [] => ⟨⟨0, 0, 0⟩, ⟨0, 0, 0⟩⟩
  | v :: vs => vs.foldl bboxExtend ⟨v, v⟩

/-- JavaScript `Array.prototype.slice(s, e)`. -/
def jsSlice {α : Type} (l : List α) (s e : Nat) : List α :=
  (l.drop s).take (e - s)

/-! ## GeometryChunk (src/core/GeometryChunk.js)

The parsed state of a geometry chunk: the element table read from the
header, the chunk-global flat vertex and face arrays, and the
per-element objects built by `organizeGeometryData`.  `this.elements`
is a JavaScript object keyed by numeric element ID; it is modelled as
an association list with replace-on-insert semantics (a colliding
element ID overwrites the earlier element, as in the source).  JS
objects iterate integer-like keys in ascending order rather than
insertion order; only the multiset of values matters to the claims
below, so insertion order is kept. -/

/-- A fixed-size element-table record as parsed from the chunk header. -/
structure ElemInfo where
  id : Nat
  etype : Nat
  materialId : Nat
  vertexOffset : Nat
  vertexCount : Nat
  faceOffset : Nat
  faceCount : Nat
deriving DecidableEq, Repr

/-- A reconstructed per-element object.  Face indices are re-based from
chunk-global to element-local by subtracting `vertexOffset`, which in
the source is plain number subtraction and can go negative, hence
`Int`. -/
structure GElement where
  id : Nat
  etypeName : String
  materialId : Nat
  vertices : List Vec3
  faces : List (Int × Int × Int)
  boundingBox : BBox
deriving DecidableEq, Repr

/-- The in-memory state of a parsed GeometryChunk. -/
structure GeometryChunkState where
  elementTable : List ElemInfo
  vertices : List Vec3
  faces : List (Nat × Nat × Nat)
  elements : List (Nat × GElement)
deriving DecidableEq, Repr

namespace GeometryChunk

/-- GeometryChunk.getElementTypeName. -/
def getElementTypeName (t : Nat) : String :=
  if t = 1 then "wall" else if t = 2 then "slab" else if t = 3 then "beam"
  else if t = 4 then "column" else if t = 5 then "door" else if t = 6 then "window"
  else if t = 7 then "roof" else if t = 8 then "stair" else if t = 9 then "railing"
  else if t = 10 then "furniture" else if t = 99 then "generic" else "unknown"

/-- GeometryChunk.calculateElementBoundingBox. -/
def calculateElementBoundingBox (vertices : List Vec3) : BBox :=
  verticesBBox vertices

/-- One per-element object, as built inside `organizeGeometryData`:
slice the flat buffers at the element's recorded offset/count, re-base
face indices, recompute the bounding box from the element's own
slice. -/
def mkGElement (vertices : List Vec3) (faces : List (Nat × Nat × Nat))
    (info : ElemInfo) : GElement :=
  let evs := jsSlice vertices info.vertexOffset (info.vertexOffset + info.vertexCount)
  let efs := (jsSlice faces info.faceOffset (info.faceOffset + info.faceCount)).map
    (fun f => ((f.1 : Int) - info.vertexOffset, (f.2.1 : Int) - info.vertexOffset,
      (f.2.2 : Int) - info.vertexOffset))
  { id := info.id
    etypeName := getElementTypeName info.etype
    materialId := info.materialId
    vertices := evs
    faces := efs
    boundingBox := calculateElementBoundingBox evs }

/-- GeometryChunk.organizeGeometryData, applied to the element table and
the decoded flat buffers: the state of the chunk after
`parseFromBinary` has succeeded. -/
def organizeGeometryData (elementTable : List ElemInfo) (vertices : List Vec3)
    (faces : List (Nat × Nat × Nat)) : GeometryChunkState :=
  { elementTable := elementTable
    vertices := vertices
    faces := faces
    elements := elementTable.foldl
      (fun acc info => mapSet acc info.id (mkGElement vertices faces info)) [] }

/-- The result of `GeometryChunk.validate`. -/
structure ValidationResult where
  isValid : Bool
  errors : List String
deriving DecidableEq, Repr

/-- Errors contributed by one chunk-global face in the first loop of
`validate`: one error per face index that is `>= vertices.length`,
checked in index order within the face. -/
def chunkFaceErrors (vlen : Nat) (i : Nat) (f : Nat × Nat × Nat) : List String :=
  (if vlen ≤ f.1 then
    ["Face " ++ toString i ++ " references invalid vertex index: " ++ toString f.1] else [])
  ++ (if vlen ≤ f.2.1 then
    ["Face " ++ toString i ++ " references invalid vertex index: " ++ toString f.2.1] else [])
  ++ (if vlen ≤ f.2.2 then
    ["Face " ++ toString i ++ " references invalid vertex index: " ++ toString f.2.2] else [])

/-- Errors contributed by one re-based face of one element in the
second loop of `validate`. -/
def elementFaceErrors (eid : Nat) (vlen : Nat) (i : Nat) (f : Int × Int × Int) : List String :=
  (if (vlen : Int) ≤ f.1 then
    ["Element " ++ toString eid ++ " face " ++ toString i ++
      " references invalid vertex index: " ++ toString f.1] else [])
  ++ (if (vlen : Int) ≤ f.2.1 then
    ["Element " ++ toString eid ++ " face " ++ toString i ++
      " references invalid vertex index: " ++ toString f.2.1] else [])
  ++ (if (vlen : Int) ≤ f.2.2 then
    ["Element " ++ toString eid ++ " face " ++ toString i ++
      " references invalid vertex index: " ++ toString f.2.2] else [])

/-- GeometryChunk.validate: report every chunk-global face index out of
the chunk's vertex range, then every element-local face index out of
the element's own vertex range.  (`this.faces`, `this.vertices` and
`element.faces` are always arrays after a successful parse, and arrays
are truthy, so the guarding `if`s in the source always pass.) -/
def validate (c : GeometryChunkState) : ValidationResult :=
  let chunkErrors := (c.faces.enum.map
    (fun p => chunkFaceErrors c.vertices.length p.1 p.2)).flatten
  let elementErrors := (c.elements.map
    (fun p => ((p.2.faces.enum.map
      (fun q => elementFaceErrors p.2.id p.2.vertices.length q.1 q.2)).flatten))).flatten
  let errors := chunkErrors ++ elementErrors
  { isValid := errors.isEmpty
    errors := errors }

end GeometryChunk

/-! ## CHDWriter pipeline (src/writers/CHDWriter.js)

The write pipeline is modelled up to the artifacts the claims are
about: the manifest (bounding box, chunk index, statistics), the chunk
records, the spatial-index node records, and the progress-callback
event sequence.  Byte-level serialization, compression, attribute/CBOR
encoding and filesystem effects are not modelled; where serialization
changes a value that a claim depends on (the `DataView` coercion of
IDs stored with `writeUInt32`), the coercion is applied at the record
level. -/

/-- A producer-supplied model element.  `Option` marks fields the
source guards for absence (`undefined`); an empty array is present and
truthy. -/
structure Element where
  id : Option JsKey
  index : Option Int
  etype : Option String
  materialId : Option Nat
  vertices : Option (List Vec3)
  faces : Option (List (Nat × Nat × Nat))
deriving DecidableEq, Repr

/-- The input model: `elements` is `none` when the field is missing or
not an array. -/
structure Model where
  elements : Option (List Element)
deriving DecidableEq, Repr

/-- Writer options (subset the claims depend on). -/
structure WriterOptions where
  chunkSize : Nat
  createSpatialIndex : Bool
deriving DecidableEq, Repr

/-- The defaults from the CHDWriter constructor. -/
def defaultWriterOptions : WriterOptions :=
  { chunkSize := 10000, createSpatialIndex := true }

/-- Aggregate statistics kept in `manifest.statistics`. -/
structure Statistics where
  total_elements : Nat
  total_vertices : Nat
  total_faces : Nat
deriving DecidableEq, Repr

/-- One entry of `manifest.index.geometry_chunks`; `id` is the
zero-padded chunk-ID string. -/
structure ManifestChunkEntry where
  id : JsKey
  elements : Nat
deriving DecidableEq, Repr

/-- The manifest fields the claims depend on. -/
structure Manifest where
  bounding_box : BBox
  geometry_chunks : List ManifestChunkEntry
  statistics : Statistics
deriving DecidableEq, Repr

/-- One element-table record built by `processChunkGeometry`.  The
surrogate `id` is a plain JavaScript number (`Int`): numeric input IDs
pass through unwrapped. -/
structure WElem where
  id : Int
  originalId : JsKey
  etype : Nat
  materialId : Nat
  vertexOffset : Nat
  vertexCount : Nat
  faceOffset : Nat
  faceCount : Nat
deriving DecidableEq, Repr

/-- One writer-side chunk record (`this.chunks[i]`). -/
structure WChunk where
  id : String
  vertices : List Vec3
  faces : List (Nat × Nat × Nat)
  elementTable : List WElem
deriving DecidableEq, Repr

/-- A spatial-index node record, as written by
`CHDWriter.createSpatialIndex` and as parsed by
`SpatialIndex.parseNode` — the record-level view of the `spatial.idx`
byte layout (node ID, parent ID, child count, leaf flag, bounding box,
child IDs, element IDs, owning chunk ID). -/
structure SNode where
  id : Nat
  parentId : Nat
  childCount : Nat
  isLeaf : Bool
  bbox : BBox
  childIds : List Nat
  elementIds : List Nat
  chunkId : Nat
deriving DecidableEq, Repr

namespace CHDWriter

/-- The element ID used for the element table:
`element.id || elem_(element.index || 0)`. -/
def elementIdOf (e : Element) : JsKey :=
  match e.id with
  | some k => if jsTruthy k then k else .str ("elem_" ++ toString (e.index.getD 0))
  | none => .str ("elem_" ++ toString (e.index.getD 0))

/-- CHDWriter.getElementTypeCode (keys are matched lowercase; unknown
types map to 99). -/
def getElementTypeCode (t : String) : Nat :=
  let s := t.toLower
  if s = "wall" then 1 else if s = "slab" then 2 else if s = "beam" then 3
  else if s = "column" then 4 else if s = "door" then 5 else if s = "window" then 6
  else if s = "roof" then 7 else if s = "stair" then 8 else if s = "railing" then 9
  else if s = "furniture" then 10 else if s = "generic" then 99 else 99

/-- The `element.type || 'generic'` default. -/
def elementTypeOf (e : Element) : String :=
  match e.etype with
  | some s => if s ≠ "" then s else "generic"
  | none => "generic"

/-- Accumulator for the `processChunkGeometry` loop. -/
structure ChunkGeomAcc where
  vertices : List Vec3
  faces : List (Nat × Nat × Nat)
  elementTable : List WElem
  vertexOffset : Nat
  faceOffset : Nat
  ids : IdState
deriving Repr

/-- One iteration of the `processChunkGeometry` loop: elements missing
a vertex or face array are skipped; otherwise vertices are appended to
the chunk-local flat buffer, face indices are re-based by the running
vertex offset, and an element-table record is created with the
surrogate numeric ID. -/
def processChunkElement (acc : ChunkGeomAcc) (e : Element) : ChunkGeomAcc :=
  match e.vertices, e.faces with
  | some vs, some fs =>
    let idk := elementIdOf e
    let (numericId, ids) := convertToNumericId acc.ids idk
    { vertices := acc.vertices ++ vs
      faces := acc.faces ++ fs.map (fun f =>
        (f.1 + acc.vertexOffset, f.2.1 + acc.vertexOffset, f.2.2 + acc.vertexOffset))
      elementTable := acc.elementTable ++
        [{ id := numericId
           originalId := idk
           etype := getElementTypeCode (elementTypeOf e)
           materialId := e.materialId.getD 0
           vertexOffset := acc.vertexOffset
           vertexCount := vs.length
           faceOffset := acc.faceOffset
           faceCount := fs.length }]
      vertexOffset := acc.vertexOffset + vs.length
      faceOffset := acc.faceOffset + fs.length
      ids := ids }
  | _, _ => acc

/-- CHDWriter.processChunkGeometry over one chunk's element slice. -/
def processChunkGeometry (ids : IdState) (chunkId : String) (elems : List Element) :
    WChunk × IdState :=
  let acc := elems.foldl processChunkElement ⟨[], [], [], 0, 0, ids⟩
  ({ id := chunkId, vertices := acc.vertices, faces := acc.faces,
     elementTable := acc.elementTable }, acc.ids)

/-- JavaScript `String(k).padStart(3, '0')`. -/
def padStart3 (s : String) : String :=
  String.mk (List.replicate (3 - s.length) '0') ++ s

/-- The sequential chunk ID of the `k`-th chunk (0-based `k`):
`String(k + 1).padStart(3, '0')`. -/
def chunkIdString (k : Nat) : String :=
  padStart3 (toString (k + 1))

/-- The iteration core of `chunkList`, with explicit fuel. -/
def chunkListGo {α : Type} (size : Nat) : Nat → List α → List (List α)
  | 0, _ => []
  | Nat.succ fuel, l =>
    if l.length = 0 then []
    else l.take size :: chunkListGo size fuel (l.drop size)

/-- Partition a list into runs of `size` consecutive elements,
preserving order: the `for (i = 0; i < n; i += chunkSize)` loop.  The
fuel argument (`l.length`, one unit per loop iteration, each of which
consumes at least one element when `size ≥ 1`) makes the recursion
structural so that concrete instances evaluate.  The source diverges
when `chunkSize = 0`; the model returns `[]` there and is only used
with positive sizes (the default is 10000). -/
def chunkList {α : Type} (size : Nat) (l : List α) : List (List α) :=
  if size = 0 then [] else chunkListGo size l.length l

/-- CHDWriter.organizeElementsIntoChunks: chunk `k` receives elements
`[k·size, (k+1)·size)` and the zero-padded sequential chunk ID; the
writer's ID-mapping table is threaded through the chunk loop. -/
def organizeElementsIntoChunks (opts : WriterOptions) (ids : IdState)
    (elements : List Element) : List WChunk × IdState :=
  (chunkList opts.chunkSize elements).enum.foldl
    (fun (acc : List WChunk × IdState) p =>
      let (chunk, ids) := processChunkGeometry acc.2 (chunkIdString p.1) p.2
      (acc.1 ++ [chunk], ids))
    ([], ids)

/-- CHDWriter.calculateProjectBoundingBox over all input vertices
(elements without a vertex array contribute nothing; the empty case
yields the zero box). -/
def calculateProjectBoundingBox (elements : List Element) : BBox :=
  verticesBBox (elements.foldl (fun acc e => acc ++ e.vertices.getD []) [])

/-- CHDWriter.calculateChunkBoundingBox. -/
def calculateChunkBoundingBox (vertices : List Vec3) : BBox :=
  verticesBBox vertices

/-- The writer state after `processModelData`: manifest initialized,
chunks organized, statistics accumulated. -/
structure WriterState where
  manifest : Manifest
  chunks : List WChunk
  ids : IdState
deriving Repr

/-- CHDWriter.processModelData: rejects a model whose `elements` field
is missing or not an array (and nothing else); initializes the
manifest with `total_elements = elements.length`, computes the project
bounding box, organizes elements into chunks and accumulates vertex
and face totals. -/
def processModelData (opts : WriterOptions) (m : Model) : Except String WriterState :=
  match m.elements with
  | none => .error "Model must contain an elements array"
  | some es =>
    let bbox := calculateProjectBoundingBox es
    let (chunks, ids) := organizeElementsIntoChunks opts ⟨[]⟩ es
    .ok
      { manifest :=
          { bounding_box := bbox
            geometry_chunks := []
            statistics :=
              { total_elements := es.length
                total_vertices := (chunks.map (fun c => c.vertices.length)).sum
                total_faces := (chunks.map (fun c => c.faces.length)).sum } }
        chunks := chunks
        ids := ids }

/-- CHDWriter.writeGeometryChunks, restricted to its manifest effect:
append one chunk-index entry per chunk, with the string chunk ID and
the element count. -/
def chunkManifestEntry (c : WChunk) : ManifestChunkEntry :=
  { id := .str c.id, elements := c.elementTable.length }

/-- The manifest after the chunk-entry appends of
`writeGeometryChunks`. -/
def writeGeometryChunksManifest (st : WriterState) : WriterState :=
  { st with manifest :=
      { st.manifest with geometry_chunks :=
          st.manifest.geometry_chunks ++ st.chunks.map chunkManifestEntry } }

/-- CHDWriter.createSpatialIndex, as the record-level composition of
serialization and parsing: one leaf node per chunk, node ID `i + 1`,
parent ID 0, no children, the chunk's bounding box, the element-table
surrogate IDs wrapped by the `writeUInt32` store, and the chunk-ID
string coerced to a number by the same store.  An empty chunk list
produces no index. -/
def mkSpatialNodes : Nat → List WChunk → List SNode
  | _, [] => []
  | i, c :: cs =>
    { id := i + 1
      parentId := 0
      childCount := 0
      isLeaf := true
      bbox := calculateChunkBoundingBox c.vertices
      childIds := []
      elementIds := c.elementTable.map (fun e => toUint32 e.id)
      chunkId := stringToUint32 c.id } :: mkSpatialNodes (i + 1) cs

/-- The write output the claims inspect: the final manifest, the chunk
records, the ID-mapping table, and the spatial-index records (none when
the option is off or there are no chunks). -/
structure WriteOutput where
  manifest : Manifest
  chunks : List WChunk
  ids : IdState
  spatialRecords : Option (List SNode)
deriving Repr

/-- CHDWriter.write, restricted to the stages and artifacts modelled
here: validate and process the model, record the chunk index in the
manifest, build the spatial index when enabled and non-trivial. -/
def write (opts : WriterOptions) (m : Model) : Except String WriteOutput :=
  match processModelData opts m with
  | .error e => .error ("CHD writing failed: " ++ e)
  | .ok st =>
    let st := writeGeometryChunksManifest st
    let spatialRecords :=
      if opts.createSpatialIndex ∧ st.chunks ≠ [] then some (mkSpatialNodes 0 st.chunks)
      else none
    .ok { manifest := st.manifest, chunks := st.chunks, ids := st.ids,
          spatialRecords := spatialRecords }

/-- The write statistics returned by `CHDWriter.getWriteStatistics`
(fields the claims compare; file size and compression ratio are
byte-level and not modelled). -/
structure WriteStats where
  chunks : Nat
  elements : Nat
  vertices : Nat
  faces : Nat
deriving DecidableEq, Repr

/-- CHDWriter.getWriteStatistics. -/
def getWriteStatistics (o : WriteOutput) : WriteStats :=
  { chunks := o.chunks.length
    elements := o.manifest.statistics.total_elements
    vertices := o.manifest.statistics.total_vertices
    faces := o.manifest.statistics.total_faces }

/-- Math.round for JavaScript numbers (round half toward +∞). -/
def jsRound (q : ℚ) : Int :=
  ⌊q + 1 / 2⌋

/-- One progress-callback invocation: the stage name and the rounded
percentage, as built by `CHDWriter.reportProgress`. -/
def reportedEvent (stage : String) (pct : ℚ) : String × Int :=
  (stage, jsRound pct)

/-- The full sequence of progress events of one successful
`CHDWriter.write` with a configured callback: the seven stage reports
of `write` interleaved with the per-chunk reports of
`writeGeometryChunks` (chunk `i` of `n` reports `20 + 30·(i+1)/n`),
and the spatial-index report only when the option is enabled. -/
def writeProgressEvents (numChunks : Nat) (withSpatialIndex : Bool) : List (String × Int) :=
  [reportedEvent "prepare" 5, reportedEvent "process" 20]
    ++ (List.range numChunks).map
      (fun (i : Nat) => reportedEvent "chunk" (20 + 30 * ((i : ℚ) + 1) / (numChunks : ℚ)))
    ++ [reportedEvent "geometry" 50, reportedEvent "attributes" 70]
    ++ (if withSpatialIndex then [reportedEvent "spatial_index" 85] else [])
    ++ [reportedEvent "manifest" 95, reportedEvent "complete" 100]

end CHDWriter

/-! ## SpatialIndex (src/core/SpatialIndex.js) -/

namespace SpatialIndex

/-- The in-memory state of a loaded spatial index: the node map and the
element-to-chunk map built by `parseNodes`, both insertion-ordered with
`Map.set` replace semantics. -/
structure State where
  nodes : List (Nat × SNode)
  elementToChunk : List (Nat × Nat)
deriving DecidableEq, Repr

/-- One iteration of `parseNodes`: register the node under its ID and,
for a leaf, point every contained element ID at the leaf's chunk ID. -/
def parseNodesStep (st : State) (r : SNode) : State :=
  { nodes := mapSet st.nodes r.id r
    elementToChunk :=
      if r.isLeaf then r.elementIds.foldl (fun m e => mapSet m e r.chunkId) st.elementToChunk
      else st.elementToChunk }

/-- SpatialIndex.loadFromBinary, at the record level: fold `parseNode`
over the `nodeCount` records in file order. -/
def loadFromRecords (records : List SNode) : State :=
  records.foldl parseNodesStep ⟨[], []⟩

/-- SpatialIndex.boundingBoxIntersects: per-axis interval overlap. -/
def boundingBoxIntersects (box1 box2 : BBox) : Bool :=
  decide (box1.lo.x ≤ box2.hi.x) && decide (box2.lo.x ≤ box1.hi.x) &&
  decide (box1.lo.y ≤ box2.hi.y) && decide (box2.lo.y ≤ box1.hi.y) &&
  decide (box1.lo.z ≤ box2.hi.z) && decide (box2.lo.z ≤ box1.hi.z)

/-- Adding an element ID to the result `Set`: JavaScript sets keep the
first insertion and ignore duplicates. -/
def setAdd (acc : List Nat) (x : Nat) : List Nat :=
  if x ∈ acc then acc else acc ++ [x]

/-- SpatialIndex.queryNode: prune on disjoint boxes, collect a leaf's
element IDs, recurse into an internal node's children.  The source
recursion is unbounded; the model uses explicit fuel, and callers pass
`nodes.length + 1`, enough for any acyclic index (and exact for the
writer's flat one-leaf-per-chunk indexes, which never recurse). -/
def queryNode (idx : State) (qbox : BBox) : Nat → Nat → List Nat → List Nat
  | 0, _, acc => acc
  | Nat.succ fuel, nodeId, acc =>
    match mapGet idx.nodes nodeId with
    | none => acc
    | some node =>
      if !(boundingBoxIntersects node.bbox qbox) then acc
      else if node.isLeaf then node.elementIds.foldl setAdd acc
      else node.childIds.foldl (fun a cid => queryNode idx qbox fuel cid a) acc

/-- SpatialIndex.queryBounds: depth-first traversal from the root node
ID 1, returning the collected element IDs in insertion order. -/
def queryBounds (idx : State) (minX minY minZ maxX maxY maxZ : ℚ) : List Nat :=
  queryNode idx ⟨⟨minX, minY, minZ⟩, ⟨maxX, maxY, maxZ⟩⟩ (idx.nodes.length + 1) 1 []

/-- SpatialIndex.findChunkForElement. -/
def findChunkForElement (idx : State) (elementId : Nat) : Option Nat :=
  mapGet idx.elementToChunk elementId

end SpatialIndex

/-! ## CHDParser (src/parsers/CHDParser.js) -/

namespace CHDParser

/-- The parser state the claims inspect: the loaded manifest, the
loaded-chunk cache (keyed by JavaScript Map keys — string chunk IDs
from the eager path, numeric chunk IDs from the lazy path), and the
optional spatial index. -/
structure State where
  manifest : Manifest
  loadedChunks : List (JsKey × GeometryChunkState)
  spatialIndex : Option SpatialIndex.State
deriving Repr

/-- The chunk files of the container, keyed by the manifest chunk-entry
ID: `fs.readFile` of the chunk path followed by
`GeometryChunk.parseFromBinary`, either of which can fail. -/
def ChunkEnv : Type := JsKey → Except String GeometryChunkState

/-- The first loop of `getElement`: scan already-loaded chunks for the
element ID. -/
def scanLoadedChunks (loaded : List (JsKey × GeometryChunkState)) (elementId : Nat) :
    Option GElement :=
  loaded.findSome? (fun p => mapGet p.2.elements elementId)

/-- CHDParser.loadSpecificChunk: resolve the chunk in the manifest
index by strict equality on the chunk ID, read and parse its file, and
memoize it into the loaded-chunk cache under the given key.  A chunk ID
absent from the manifest is an error naming the ID. -/
def loadSpecificChunk (env : ChunkEnv) (st : State) (chunkId : JsKey) :
    Except String State :=
  match st.manifest.geometry_chunks.find? (fun c => jsStrictEq c.id chunkId) with
  | none => .error ("Chunk " ++ jsKeyToString chunkId ++ " not found in manifest")
  | some info =>
    match env info.id with
    | .error e => .error e
    | .ok chunk => .ok { st with loadedChunks := mapSet st.loadedChunks chunkId chunk }

/-- CHDParser.getElement: scan loaded chunks; on a miss with a spatial
index present, resolve the owning chunk ID (a number read from the
binary index), lazily load that chunk keyed by the numeric ID, and
return the element from the reloaded cache; otherwise return null. -/
def getElement (env : ChunkEnv) (st : State) (elementId : Nat) :
    Except String (Option GElement × State) :=
  match scanLoadedChunks st.loadedChunks elementId with
  | some e => .ok (some e, st)
  | none =>
    match st.spatialIndex with
    | none => .ok (none, st)
    | some idx =>
      match SpatialIndex.findChunkForElement idx elementId with
      | none => .ok (none, st)
      | some chunkId =>
        if chunkId != 0 && !(mapHas st.loadedChunks (.num chunkId)) then
          match loadSpecificChunk env st (.num chunkId) with
          | .error e => .error e
          | .ok st' =>
            match mapGet st'.loadedChunks (.num chunkId) with
            | some chunk =>
              match mapGet chunk.elements elementId with
              | some e => .ok (some e, st')
              | none => .ok (none, st')
            | none => .ok (none, st')
        else .ok (none, st)

/-- CHDParser.queryByBounds: fail fast when no spatial index is loaded;
otherwise query the index and fetch each returned element (with lazy
loading), keeping the non-null ones. -/
def queryByBounds (env : ChunkEnv) (st : State)
    (minX minY minZ maxX maxY maxZ : ℚ) : Except String (List GElement × State) :=
  match st.spatialIndex with
  | none => .error "Spatial index not loaded. Enable loadSpatialIndex option."
  | some idx =>
    (SpatialIndex.queryBounds idx minX minY minZ maxX maxY maxZ).foldlM
      (fun (acc : List GElement × State) eid => do
        let r ← getElement env acc.2 eid
        match r.1 with
        | some e => pure (acc.1 ++ [e], r.2)
        | none => pure (acc.1, r.2))
      ([], st)

/-- The reader statistics returned by `CHDParser.getStatistics`: the
manifest statistics spread verbatim, plus cache telemetry. -/
structure ReaderStats where
  total_elements : Nat
  total_vertices : Nat
  total_faces : Nat
  chunksLoaded : Nat
  spatialIndexLoaded : Bool
deriving DecidableEq, Repr

/-- CHDParser.getStatistics. -/
def getStatistics (st : State) : ReaderStats :=
  { total_elements := st.manifest.statistics.total_elements
    total_vertices := st.manifest.statistics.total_vertices
    total_faces := st.manifest.statistics.total_faces
    chunksLoaded := st.loadedChunks.length
    spatialIndexLoaded := st.spatialIndex.isSome }

end CHDParser

/-! ## Concrete instances used to settle individual claims -/

/-- A chunk whose two elements sit far apart: element 10 occupies the
unit cube at the origin, element 20 the unit cube translated by
`[10, 0, 0]` (two vertices each suffice for the bounding boxes). -/
def c1Chunk : WChunk :=
  { id := "001"
    vertices := [⟨0, 0, 0⟩, ⟨1, 1, 1⟩, ⟨10, 0, 0⟩, ⟨11, 1, 1⟩]
    faces := []
    elementTable :=
      [{ id := 10, originalId := .num 10, etype := 99, materialId := 0,
         vertexOffset := 0, vertexCount := 2, faceOffset := 0, faceCount := 0 },
       { id := 20, originalId := .num 20, etype := 99, materialId := 0,
         vertexOffset := 2, vertexCount := 2, faceOffset := 0, faceCount := 0 }] }

/-- The element-table record of element 20 of `c1Chunk` as the reader
parses it. -/
def c1Elem20 : ElemInfo :=
  { id := 20, etype := 99, materialId := 0, vertexOffset := 2, vertexCount := 2,
    faceOffset := 0, faceCount := 0 }

/-- A second chunk whose single element 30 also occupies the unit cube
at the origin. -/
def c1ChunkB : WChunk :=
  { id := "002"
    vertices := [⟨0, 0, 0⟩, ⟨1, 1, 1⟩]
    faces := []
    elementTable :=
      [{ id := 30, originalId := .num 30, etype := 99, materialId := 0,
         vertexOffset := 0, vertexCount := 2, faceOffset := 0, faceCount := 0 }] }

/-- A one-element input model with a string element ID. -/
def c2Model : Model :=
  { elements := some
      [{ id := some (.str "wall_1"), index := none, etype := some "wall",
         materialId := none, vertices := some [⟨0, 0, 0⟩], faces := some [(0, 0, 0)] }] }

/-- The write output of an empty-element model; also the fallback in
`c2Out` (never reached: the write of `c2Model` succeeds). -/
def emptyWriteOutput : CHDWriter.WriteOutput :=
  { manifest :=
      { bounding_box := ⟨⟨0, 0, 0⟩, ⟨0, 0, 0⟩⟩
        geometry_chunks := []
        statistics := ⟨0, 0, 0⟩ }
    chunks := []
    ids := ⟨[]⟩
    spatialRecords := none }

/-- The container produced by writing `c2Model` with default options. -/
def c2Out : CHDWriter.WriteOutput :=
  match CHDWriter.write defaultWriterOptions c2Model with
  | .ok o => o
  | .error _ => emptyWriteOutput

/-- A chunk-file environment that fails every read, witnessing that the
lazy path dies before any file is touched. -/
def c2Env : CHDParser.ChunkEnv := fun _ => .error "chunk file read attempted"

/-- The parser state after parsing the `c2Model` container with
geometry loading off and the spatial index loaded (the lazy-loading
configuration). -/
def c2Reader : CHDParser.State :=
  { manifest := c2Out.manifest
    loadedChunks := []
    spatialIndex := some (SpatialIndex.loadFromRecords (c2Out.spatialRecords.getD [])) }

/-- The surrogate ID of the element with original ID "wall_1", as it
appears in the loaded spatial index. -/
def c2Surrogate : Nat :=
  toUint32 (CHDParser.convertToNumericId (.str "wall_1"))

end CHD

namespace CHD

/-! ## Claim theorems: surrogate IDs and the binary reader -/

/-- C3: for every ASCII string of length ≥ 1, the writer's and the
parser's `convertToNumericId` compute the same non-negative numeric
surrogate — the two hash functions are extensionally equal. -/
theorem convertToNumericId_writer_parser_agree (st : CHDWriter.IdState) (s : String)
    (hlen : 1 ≤ s.length) (hascii : ∀ c ∈ s.toList, c.toNat < 128) :
    (CHDWriter.convertToNumericId st (.str s)).1 = CHDParser.convertToNumericId (.str s) ∧
      0 ≤ CHDParser.convertToNumericId (.str s) := by
  have hloop : ∀ (l : List Char) (h : Int), CHDWriter.hashLoop h l = CHDParser.hashLoop h l := by
    intro l
    induction l with
    | nil => intro h; rfl
    | cons c cs ih =>
      intro h
      simpa [CHDWriter.hashLoop, CHDParser.hashLoop, CHDWriter.hashStep,
        CHDParser.hashStep] using ih _
  refine ⟨?_, ?_⟩
  · simp [CHDWriter.convertToNumericId, CHDParser.convertToNumericId, hloop]
  · simp [CHDParser.convertToNumericId]

/-- Witness for C3 at the concrete ASCII string "wall". -/
theorem convertToNumericId_writer_parser_agree_witness :
    (CHDWriter.convertToNumericId ⟨[]⟩ (.str "wall")).1 =
        CHDParser.convertToNumericId (.str "wall") ∧
      0 ≤ CHDParser.convertToNumericId (.str "wall") :=
  convertToNumericId_writer_parser_agree ⟨[]⟩ "wall" (by decide) (by decide)

/-- C10: a numeric input ID is returned verbatim by both the writer's
and the parser's `convertToNumericId` — no hashing, no wrapping to 32
bits, no sign normalization — and the writer's ID-mapping table is left
untouched. -/
theorem convertToNumericId_numeric_passthrough (st : CHDWriter.IdState) (n : Int) :
    CHDWriter.convertToNumericId st (.num n) = (n, st) ∧
      CHDParser.convertToNumericId (.num n) = n := by
  exact ⟨rfl, rfl⟩

/-- C5: every BinaryReader primitive read whose requested byte count
runs past the end of the buffer returns an error that reports the
offset attempted, and leaves the cursor offset unchanged. -/
theorem binaryReader_read_past_end_errors (s : BRState) (n : Nat) :
    (s.data.length < s.offset + n →
      BinaryReader.readBytes s n =
        (.error ("Cannot read " ++ toString n ++ " bytes at offset " ++ toString s.offset), s)) ∧
    (s.data.length < s.offset + 1 →
      BinaryReader.readUInt8 s =
        (.error ("Cannot read UInt8 at offset " ++ toString s.offset), s)) ∧
    (s.data.length < s.offset + 2 →
      BinaryReader.readUInt16 s =
        (.error ("Cannot read UInt16 at offset " ++ toString s.offset), s)) ∧
    (s.data.length < s.offset + 4 →
      BinaryReader.readUInt32 s =
        (.error ("Cannot read UInt32 at offset " ++ toString s.offset), s)) ∧
    (s.data.length < s.offset + 4 →
      BinaryReader.readInt32 s =
        (.error ("Cannot read Int32 at offset " ++ toString s.offset), s)) ∧
    (s.data.length < s.offset + 4 →
      BinaryReader.readFloat32 s =
        (.error ("Cannot read Float32 at offset " ++ toString s.offset), s)) ∧
    (s.data.length < s.offset + 8 →
      BinaryReader.readFloat64 s =
        (.error ("Cannot read Float64 at offset " ++ toString s.offset), s)) := by
  refine ⟨?_, ?_, ?_, ?_, ?_, ?_, ?_⟩ <;>
    · intro h
      simp only [BinaryReader.readBytes, BinaryReader.readUInt8, BinaryReader.readUInt16,
        BinaryReader.readUInt32, BinaryReader.readInt32, BinaryReader.readFloat32,
        BinaryReader.readFloat64, BinaryReader.canRead]
      rw [if_neg]
      simp
      omega

/-- Witness for C5: a one-byte buffer with the cursor at the end; every
primitive read fails with the offset in the message and the state
unchanged. -/
theorem binaryReader_read_past_end_errors_witness :
    BinaryReader.readBytes ⟨[7], 1⟩ 1 =
        (.error "Cannot read 1 bytes at offset 1", ⟨[7], 1⟩) ∧
      BinaryReader.readUInt8 ⟨[7], 1⟩ = (.error "Cannot read UInt8 at offset 1", ⟨[7], 1⟩) ∧
      BinaryReader.readUInt16 ⟨[7], 1⟩ = (.error "Cannot read UInt16 at offset 1", ⟨[7], 1⟩) ∧
      BinaryReader.readUInt32 ⟨[7], 1⟩ = (.error "Cannot read UInt32 at offset 1", ⟨[7], 1⟩) ∧
      BinaryReader.readInt32 ⟨[7], 1⟩ = (.error "Cannot read Int32 at offset 1", ⟨[7], 1⟩) ∧
      BinaryReader.readFloat32 ⟨[7], 1⟩ = (.error "Cannot read Float32 at offset 1", ⟨[7], 1⟩) ∧
      BinaryReader.readFloat64 ⟨[7], 1⟩ = (.error "Cannot read Float64 at offset 1", ⟨[7], 1⟩) := by
  have h := binaryReader_read_past_end_errors ⟨[7], 1⟩ 1
  exact ⟨h.1 (by decide), h.2.1 (by decide), h.2.2.1 (by decide), h.2.2.2.1 (by decide),
    h.2.2.2.2.1 (by decide), h.2.2.2.2.2.1 (by decide), h.2.2.2.2.2.2 (by decide)⟩

/-! ## Claim theorems: GeometryChunk.validate (C4) -/

/-- C4 counterexample: a parsed chunk with a single element having 8
vertices and one face referencing vertex index 99.  `validate` does
return `isValid = false`, but its error list has exactly TWO entries —
one from the chunk-wide pass and one from the per-element pass — not
exactly one as claimed. -/
theorem validate_single_bad_face_counterexample :
    (GeometryChunk.validate (GeometryChunk.organizeGeometryData
        [⟨42, 99, 0, 0, 8, 0, 1⟩] (List.replicate 8 ⟨0, 0, 0⟩) [(0, 1, 99)])).isValid
        = false ∧
      (GeometryChunk.validate (GeometryChunk.organizeGeometryData
        [⟨42, 99, 0, 0, 8, 0, 1⟩] (List.replicate 8 ⟨0, 0, 0⟩) [(0, 1, 99)])).errors
        = ["Face 0 references invalid vertex index: 99",
           "Element 42 face 0 references invalid vertex index: 99"] ∧
      (GeometryChunk.validate (GeometryChunk.organizeGeometryData
        [⟨42, 99, 0, 0, 8, 0, 1⟩] (List.replicate 8 ⟨0, 0, 0⟩) [(0, 1, 99)])).errors.length
        ≠ 1 := by
  refine ⟨by decide, by decide, by decide⟩

/-- C4 amended: for any parsed chunk holding a single element with 8
vertices whose only face references vertex index 99 (the other two
indices in range), `validate` returns `isValid = false` and exactly two
reported errors — one chunk-wide and one per-element — each naming that
face and the index 99. -/
theorem validate_single_bad_face_two_errors (eid t m a b : Nat) (verts : List Vec3)
    (hv : verts.length = 8) (ha : a < 8) (hb : b < 8) :
    GeometryChunk.validate (GeometryChunk.organizeGeometryData
        [⟨eid, t, m, 0, 8, 0, 1⟩] verts [(a, b, 99)]) =
      ⟨false, ["Face 0 references invalid vertex index: 99",
        "Element " ++ toString eid ++ " face 0 references invalid vertex index: 99"]⟩ := by
  have hsl : (jsSlice verts 0 8).length = 8 := by
    simp [jsSlice, hv]
  have ha' : ¬ (8 ≤ a) := by omega
  have hb' : ¬ (8 ≤ b) := by omega
  have hai : ¬ ((8 : Int) ≤ (a : Int)) := by exact_mod_cast ha'
  have hbi : ¬ ((8 : Int) ≤ (b : Int)) := by exact_mod_cast hb'
  have h99n : (8 : Nat) ≤ 99 := by norm_num
  have h99i : ((8 : Int) ≤ 99) := by norm_num
  simp [GeometryChunk.validate, GeometryChunk.organizeGeometryData, mapSet,
    GeometryChunk.mkGElement, GeometryChunk.chunkFaceErrors,
    GeometryChunk.elementFaceErrors, jsSlice, hv, ha', hb', hai, hbi, h99n, h99i]
  constructor
  · decide
  · simp only [String.append_assoc]
    rw [show (" face " ++ (toString (0 : Nat) ++ (" references invalid vertex index: " ++
      toString (99 : Int))) : String) = " face 0 references invalid vertex index: 99" from by
        decide]

/-! ## Claim theorems: progress reporting (C9) -/

theorem jsRound_mono {a b : ℚ} (h : a ≤ b) : CHDWriter.jsRound a ≤ CHDWriter.jsRound b := by
  unfold CHDWriter.jsRound
  exact Int.floor_le_floor (by linarith)

theorem chunkPct_mono (n : Nat) {i j : Nat} (hij : i ≤ j) :
    20 + 30 * ((i : ℚ) + 1) / (n : ℚ) ≤ 20 + 30 * ((j : ℚ) + 1) / (n : ℚ) := by
  rcases Nat.eq_zero_or_pos n with hn | hn
  · subst hn; simp
  · have hn' : (0 : ℚ) < n := by exact_mod_cast hn
    have hij' : ((i : ℚ) + 1) ≤ (j : ℚ) + 1 := by
      have : (i : ℚ) ≤ j := by exact_mod_cast hij
      linarith
    gcongr

theorem chunkPct_ge (n i : Nat) (hin : i < n) :
    (20 : ℚ) ≤ 20 + 30 * ((i : ℚ) + 1) / (n : ℚ) := by
  have hn' : (0 : ℚ) < n := by exact_mod_cast Nat.pos_of_ne_zero (by omega)
  have : (0 : ℚ) ≤ 30 * ((i : ℚ) + 1) / n := by positivity
  linarith

theorem chunkPct_le (n i : Nat) (hin : i < n) :
    20 + 30 * ((i : ℚ) + 1) / (n : ℚ) ≤ 50 := by
  have hn' : (0 : ℚ) < n := by exact_mod_cast Nat.pos_of_ne_zero (by omega)
  have h1 : ((i : ℚ) + 1) ≤ n := by exact_mod_cast hin
  have : 30 * ((i : ℚ) + 1) / n ≤ 30 := by
    rw [div_le_iff hn']
    linarith
  linarith

/-- C9: during any successful write with a progress callback, the
reported percentages are monotonically non-decreasing, every one lies
in `[0, 100]`, every invocation carries a non-empty stage name, and the
final invocation reports stage "complete" at 100. -/
theorem write_progress_events_wellformed (n : Nat) (b : Bool) :
    List.Chain' (fun p q : String × Int => p.2 ≤ q.2) (CHDWriter.writeProgressEvents n b) ∧
      (∀ e ∈ CHDWriter.writeProgressEvents n b, 0 ≤ e.2 ∧ e.2 ≤ 100 ∧ e.1 ≠ "") ∧
      (CHDWriter.writeProgressEvents n b).getLast? = some ("complete", 100) := by
  have j5 : CHDWriter.jsRound 5 = 5 := by unfold CHDWriter.jsRound; norm_num
  have j20 : CHDWriter.jsRound 20 = 20 := by unfold CHDWriter.jsRound; norm_num
  have j50 : CHDWriter.jsRound 50 = 50 := by unfold CHDWriter.jsRound; norm_num
  have j70 : CHDWriter.jsRound 70 = 70 := by unfold CHDWriter.jsRound; norm_num
  have j85 : CHDWriter.jsRound 85 = 85 := by unfold CHDWriter.jsRound; norm_num
  have j95 : CHDWriter.jsRound 95 = 95 := by unfold CHDWriter.jsRound; norm_num
  have j100 : CHDWriter.jsRound 100 = 100 := by unfold CHDWriter.jsRound; norm_num
  have hev : CHDWriter.writeProgressEvents n b =
      [("prepare", 5), ("process", 20)]
        ++ ((List.range n).map
          (fun (i : Nat) => ("chunk", CHDWriter.jsRound (20 + 30 * ((i : ℚ) + 1) / (n : ℚ))))
        ++ ([("geometry", 50), ("attributes", 70)]
        ++ ((if b then [("spatial_index", (85 : Int))] else [])
        ++ [("manifest", 95), ("complete", 100)]))) := by
    unfold CHDWriter.writeProgressEvents CHDWriter.reportedEvent
    rw [j5, j20, j50, j70, j85, j95, j100]
    simp [List.append_assoc]
  have h20 : ∀ i, i < n →
      (20 : Int) ≤ CHDWriter.jsRound (20 + 30 * ((i : ℚ) + 1) / (n : ℚ)) := by
    intro i hi
    have := jsRound_mono (chunkPct_ge n i hi)
    omega
  have h50 : ∀ i, i < n →
      CHDWriter.jsRound (20 + 30 * ((i : ℚ) + 1) / (n : ℚ)) ≤ 50 := by
    intro i hi
    have := jsRound_mono (chunkPct_le n i hi)
    omega
  rw [hev]
  refine ⟨?_, ?_, ?_⟩
  · -- monotonicity of the whole event chain
    have hT : List.Chain' (fun p q : String × Int => p.2 ≤ q.2)
        ([("geometry", 50), ("attributes", 70)]
          ++ ((if b then [("spatial_index", (85 : Int))] else [])
          ++ [("manifest", 95), ("complete", 100)])) := by
      cases b <;> simp [List.chain'_cons, List.chain'_singleton]
    have hThead : ([("geometry", (50 : Int)), ("attributes", 70)]
          ++ ((if b then [("spatial_index", (85 : Int))] else [])
          ++ [("manifest", 95), ("complete", 100)])).head? =
        some ("geometry", 50) := by
      cases b <;> decide
    have hM : List.Chain' (fun p q : String × Int => p.2 ≤ q.2)
        ((List.range n).map
          (fun (i : Nat) => ("chunk", CHDWriter.jsRound (20 + 30 * ((i : ℚ) + 1) / (n : ℚ))))) := by
      rw [List.chain'_map]
      cases n with
      | zero => simp
      | succ m =>
        rw [List.chain'_range_succ]
        intro k _
        exact jsRound_mono (chunkPct_mono (m + 1) (Nat.le_succ k))
    refine List.Chain'.append (by simp [List.chain'_cons, List.chain'_singleton])
      (List.Chain'.append hM hT ?_) ?_
    · -- boundary: last chunk event (if any) against ("geometry", 50)
      intro x hx y hy
      rw [hThead] at hy
      cases n with
      | zero => simp at hx
      | succ m =>
        simp only [List.range_succ, List.map_append, List.map_cons, List.map_nil,
          List.getLast?_concat, Option.mem_def, Option.some.injEq] at hx
        simp only [Option.mem_def, Option.some.injEq] at hy
        subst hx
        subst hy
        exact h50 m (Nat.lt_succ_self m)
    · -- boundary: ("process", 20) against the head of the rest
      intro x hx y hy
      simp only [List.getLast?_cons_cons, List.getLast?_singleton, Option.mem_def,
        Option.some.injEq] at hx
      subst hx
      rw [List.head?_append] at hy
      cases n with
      | zero =>
        simp only [List.range_zero, List.map_nil, List.head?_nil, Option.none_or] at hy
        rw [hThead] at hy
        simp only [Option.mem_def, Option.some.injEq] at hy
        subst hy
        decide
      | succ m =>
        rw [List.range_succ_eq_map] at hy
        simp only [List.map_cons, List.head?_cons, Option.or_some, Option.mem_def,
          Option.some.injEq] at hy
        subst hy
        exact h20 0 (Nat.succ_pos m)
  · -- every event is a named stage with a percentage in [0, 100]
    intro e he
    cases b <;>
    · rcases List.mem_append.mp he with hA | he2
      · fin_cases hA <;> exact ⟨by decide, by decide, by decide⟩
      · rcases List.mem_append.mp he2 with hM | hT
        · obtain ⟨i, hi0, rfl⟩ := List.mem_map.mp hM
          have hi := List.mem_range.mp hi0
          have ha := h20 i hi
          have hb2 := h50 i hi
          refine ⟨by omega, by omega, by simp⟩
        · simp at hT
          rcases hT with rfl | rfl | rfl | rfl | rfl <;>
            exact ⟨by decide, by decide, by decide⟩
  · -- the final event is ("complete", 100)
    cases b <;>
      simp only [reduceIte, List.getLast?_append, List.getLast?_cons_cons,
        List.getLast?_singleton, List.getLast?_nil, Option.or_some, Option.none_or]


/-! ## Claim theorems: writer input validation (C6) -/

/-- C6 counterexample: a model with an EMPTY elements array is accepted
by the write pipeline — stage 1 only rejects a missing or non-array
`elements` field — and the write completes with zero chunks and no
error. -/
theorem write_accepts_empty_elements_counterexample :
    CHDWriter.write defaultWriterOptions { elements := some [] } = .ok emptyWriteOutput := by
  rfl

/-- C6 amended: the write pipeline fails during input validation
(stage 1, before any artifact is produced) exactly when the model's
`elements` field is missing or not an array; any model with an elements
array — including an empty one — passes validation and the write
succeeds. -/
theorem write_rejects_only_missing_elements (opts : WriterOptions) (m : Model) :
    (m.elements = none →
      CHDWriter.write opts m =
        .error "CHD writing failed: Model must contain an elements array") ∧
    (∀ es, m.elements = some es → ∃ out, CHDWriter.write opts m = .ok out) := by
  constructor
  · intro h
    simp [CHDWriter.write, CHDWriter.processModelData, h]
  · intro es h
    simp [CHDWriter.write, CHDWriter.processModelData, h]

/-- Witness for the amended C6: a model without an elements array is
rejected with the stage-1 message; a model with an empty elements array
is written successfully. -/
theorem write_rejects_only_missing_elements_witness :
    CHDWriter.write defaultWriterOptions { elements := none } =
        .error "CHD writing failed: Model must contain an elements array" ∧
      ∃ out, CHDWriter.write defaultWriterOptions { elements := some [] } = .ok out :=
  ⟨(write_rejects_only_missing_elements defaultWriterOptions { elements := none }).1 rfl,
    (write_rejects_only_missing_elements defaultWriterOptions { elements := some [] }).2 [] rfl⟩

/-! ## Claim theorems: round-trip statistics (C7) -/

/-- C7: for any model successfully written, a reader of the resulting
container reports element, vertex and face totals in `getStatistics`
exactly equal to the writer's `getWriteStatistics` — the manifest the
writer wrote is the single source both sides report from, whatever the
reader has loaded. -/
theorem roundtrip_statistics_agree (opts : WriterOptions) (m : Model)
    (out : CHDWriter.WriteOutput) (h : CHDWriter.write opts m = .ok out)
    (loaded : List (JsKey × GeometryChunkState)) (idx : Option SpatialIndex.State) :
    (CHDParser.getStatistics ⟨out.manifest, loaded, idx⟩).total_elements =
        (CHDWriter.getWriteStatistics out).elements ∧
      (CHDParser.getStatistics ⟨out.manifest, loaded, idx⟩).total_vertices =
        (CHDWriter.getWriteStatistics out).vertices ∧
      (CHDParser.getStatistics ⟨out.manifest, loaded, idx⟩).total_faces =
        (CHDWriter.getWriteStatistics out).faces := by
  exact ⟨rfl, rfl, rfl⟩

/-- Witness for C7 on a concretely written container. -/
theorem roundtrip_statistics_agree_witness :
    (CHDParser.getStatistics ⟨c2Out.manifest, [], none⟩).total_elements =
        (CHDWriter.getWriteStatistics c2Out).elements ∧
      (CHDParser.getStatistics ⟨c2Out.manifest, [], none⟩).total_vertices =
        (CHDWriter.getWriteStatistics c2Out).vertices ∧
      (CHDParser.getStatistics ⟨c2Out.manifest, [], none⟩).total_faces =
        (CHDWriter.getWriteStatistics c2Out).faces :=
  roundtrip_statistics_agree defaultWriterOptions c2Model c2Out (by rfl) [] none

/-! ## Claim theorems: queryByBounds without an index (C8) -/

/-- C8: whenever the parser's spatial index is not loaded,
`queryByBounds` throws the explicit "index not loaded" error for every
choice of bounds and never returns a result. -/
theorem queryByBounds_fails_without_index (env : CHDParser.ChunkEnv)
    (st : CHDParser.State) (minX minY minZ maxX maxY maxZ : ℚ)
    (h : st.spatialIndex = none) :
    CHDParser.queryByBounds env st minX minY minZ maxX maxY maxZ =
      .error "Spatial index not loaded. Enable loadSpatialIndex option." := by
  simp [CHDParser.queryByBounds, h]

/-- Witness for C8 at a concrete parser state with no index. -/
theorem queryByBounds_fails_without_index_witness :
    CHDParser.queryByBounds c2Env ⟨emptyWriteOutput.manifest, [], none⟩ 0 0 0 1 1 1 =
      .error "Spatial index not loaded. Enable loadSpatialIndex option." :=
  queryByBounds_fails_without_index c2Env ⟨emptyWriteOutput.manifest, [], none⟩ 0 0 0 1 1 1 rfl

/-! ## Claim theorems: lazy chunk loading (C2) -/

set_option maxRecDepth 100000 in
/-- C2 evaluation at the failing input: writing a one-element model
with a string ID succeeds and indexes the element; but `getElement` on
the cold reader resolves the owning chunk ID to the NUMBER 1 (the
binary index stored the zero-padded chunk-ID string "001" through a
uint32 coercion), the strict-equality manifest lookup against the
STRING id "001" then finds nothing, and the lazy load throws
"Chunk 1 not found in manifest" instead of loading the chunk and
returning the element — before any chunk file is even read. -/
theorem getElement_lazy_load_chunk_id_mismatch :
    (CHDWriter.write defaultWriterOptions c2Model).isOk = true ∧
      c2Out.manifest.geometry_chunks.map (fun e => e.id) = [.str "001"] ∧
      SpatialIndex.findChunkForElement
        (SpatialIndex.loadFromRecords (c2Out.spatialRecords.getD [])) c2Surrogate = some 1 ∧
      CHDParser.getElement c2Env c2Reader c2Surrogate =
        .error "Chunk 1 not found in manifest" := by
  exact ⟨rfl, rfl, rfl, rfl⟩

/-! ## Claim theorems: spatial query behaviour (C1)

Helper lemmas about the association-list maps and the writer's node
records, then the claim theorems. -/

theorem mapGet_mapSet_ne {α β : Type} [DecidableEq α] (m : List (α × β)) (k k' : α) (v : β)
    (h : k ≠ k') : mapGet (mapSet m k v) k' = mapGet m k' := by
  induction m with
  | nil => simp [mapSet, mapGet, List.find?, h]
  | cons p rest ih =>
    by_cases hak : p.1 = k
    · simp only [mapSet, hak, if_pos rfl]
      simp [mapGet, List.find?, h, hak]
    · simp only [mapSet, hak, if_neg hak]
      by_cases hak' : p.1 = k'
      · simp [mapGet, List.find?, hak']
      · simp only [mapGet, List.find?] at ih ⊢
        simp [hak', ih]

theorem fold_parseNodesStep_nodes_get_one (records : List SNode) (st : SpatialIndex.State)
    (h : ∀ r ∈ records, r.id ≠ 1) :
    mapGet (records.foldl SpatialIndex.parseNodesStep st).nodes 1 = mapGet st.nodes 1 := by
  induction records generalizing st with
  | nil => rfl
  | cons r rest ih =>
    rw [List.foldl_cons, ih _ (fun x hx => h x (List.mem_cons_of_mem _ hx))]
    exact mapGet_mapSet_ne _ _ _ _ (h r (List.mem_cons_self _ _))

theorem mkSpatialNodes_id_gt (cs : List WChunk) :
    ∀ i, ∀ r ∈ CHDWriter.mkSpatialNodes i cs, i < r.id := by
  induction cs with
  | nil => intro i r hr; simp [CHDWriter.mkSpatialNodes] at hr
  | cons c rest ih =>
    intro i r hr
    simp only [CHDWriter.mkSpatialNodes, List.mem_cons] at hr
    rcases hr with hr | hr
    · subst hr; exact Nat.lt_succ_self i
    · have := ih (i + 1) r hr; omega

/-- The first chunk's leaf record, which the writer stores under node
ID 1 — the ID the reader's traversal treats as the root. -/
def headLeafNode (c : WChunk) : SNode :=
  { id := 1, parentId := 0, childCount := 0, isLeaf := true
    bbox := CHDWriter.calculateChunkBoundingBox c.vertices
    childIds := []
    elementIds := c.elementTable.map (fun e => toUint32 e.id)
    chunkId := stringToUint32 c.id }

theorem loadFromRecords_get_root (c : WChunk) (cs : List WChunk) :
    mapGet (SpatialIndex.loadFromRecords (CHDWriter.mkSpatialNodes 0 (c :: cs))).nodes 1 =
      some (headLeafNode c) := by
  show mapGet
    ((CHDWriter.mkSpatialNodes 0 (c :: cs)).foldl SpatialIndex.parseNodesStep ⟨[], []⟩).nodes 1
    = some (headLeafNode c)
  rw [show CHDWriter.mkSpatialNodes 0 (c :: cs) =
      headLeafNode c :: CHDWriter.mkSpatialNodes 1 cs from rfl]
  rw [List.foldl_cons]
  rw [fold_parseNodesStep_nodes_get_one _ _
    (fun r hr => by have := mkSpatialNodes_id_gt cs 1 r hr; omega)]
  rfl

/-- C1 amended: on every index the writer produces (one leaf per chunk,
no internal nodes) and the reader loads, `queryBounds` returns exactly
the element IDs recorded in the FIRST chunk's leaf when that chunk's
bounding box intersects the query box, and nothing at all otherwise.
Soundness therefore holds only at chunk granularity (an element whose
own bounding box misses the query box is still returned whenever its
chunk's box intersects), and completeness holds only for the first
chunk: the traversal starts at node ID 1, which is the first chunk's
leaf, and leaves have no children, so the remaining chunks' leaves
(IDs 2..n) are never visited. -/
theorem queryBounds_flat_index_first_chunk_only (c : WChunk) (cs : List WChunk)
    (minX minY minZ maxX maxY maxZ : ℚ) :
    SpatialIndex.queryBounds
        (SpatialIndex.loadFromRecords (CHDWriter.mkSpatialNodes 0 (c :: cs)))
        minX minY minZ maxX maxY maxZ =
      if SpatialIndex.boundingBoxIntersects (CHDWriter.calculateChunkBoundingBox c.vertices)
          ⟨⟨minX, minY, minZ⟩, ⟨maxX, maxY, maxZ⟩⟩ then
        (c.elementTable.map (fun e => toUint32 e.id)).foldl SpatialIndex.setAdd []
      else [] := by
  unfold SpatialIndex.queryBounds
  simp only [SpatialIndex.queryNode, loadFromRecords_get_root]
  cases hbb : SpatialIndex.boundingBoxIntersects (CHDWriter.calculateChunkBoundingBox c.vertices)
      ⟨⟨minX, minY, minZ⟩, ⟨maxX, maxY, maxZ⟩⟩ <;>
    simp [headLeafNode, hbb]

/-- C1 counterexample, both halves of the claim.  Soundness: chunk 1
holds element 10 (unit cube at the origin) and element 20 (unit cube at
`x ∈ [10, 11]`); querying the unit cube at the origin returns element
20 even though element 20's own reconstructed bounding box does not
intersect the query box.  Completeness: adding a second chunk whose
element 30 sits inside the query box — so its owning chunk's bounding
box intersects — `queryBounds` still does not return 30, because the
traversal starts and ends at leaf node ID 1. -/
theorem queryBounds_returns_nonintersecting_element_counterexample :
    (20 ∈ SpatialIndex.queryBounds
        (SpatialIndex.loadFromRecords (CHDWriter.mkSpatialNodes 0 [c1Chunk])) 0 0 0 1 1 1 ∧
      SpatialIndex.boundingBoxIntersects
        (GeometryChunk.mkGElement c1Chunk.vertices c1Chunk.faces c1Elem20).boundingBox
        ⟨⟨0, 0, 0⟩, ⟨1, 1, 1⟩⟩ = false) ∧
      (30 ∉ SpatialIndex.queryBounds
        (SpatialIndex.loadFromRecords (CHDWriter.mkSpatialNodes 0 [c1Chunk, c1ChunkB]))
        0 0 0 1 1 1 ∧
      SpatialIndex.boundingBoxIntersects
        (CHDWriter.calculateChunkBoundingBox c1ChunkB.vertices)
        ⟨⟨0, 0, 0⟩, ⟨1, 1, 1⟩⟩ = true) := by
  exact ⟨⟨by decide, by decide⟩, ⟨by decide, by decide⟩⟩

/-- Witness for the amended C4 at a concrete chunk. -/
theorem validate_single_bad_face_two_errors_witness :
    GeometryChunk.validate (GeometryChunk.organizeGeometryData
        [⟨7, 1, 0, 0, 8, 0, 1⟩] (List.replicate 8 ⟨0, 0, 0⟩) [(2, 3, 99)]) =
      ⟨false, ["Face 0 references invalid vertex index: 99",
        "Element 7 face 0 references invalid vertex index: 99"]⟩ :=
  validate_single_bad_face_two_errors 7 1 0 2 3 (List.replicate 8 ⟨0, 0, 0⟩)
    (by decide) (by decide) (by decide)

end CHD
